import Mathlib

/-!
Verification of the Stack-Birds invoice reconciliation engine.

This file is a shallow embedding of the Python sources:
  decision.py    — the decision synthesizer `decide` and `_assess_unknown_items`;
  comparator.py  — `_quantity_adjustment_factor`, `_summarize_history`,
                   `compare_line_items` (its per-item body as `evaluate_line_item`),
                   `check_math`, `check_tax`, `check_shipping`;
  vendor_db.py   — `record_invoice` over an explicit store state;
  vendor_data.py — the policy constants.

Modelling conventions:
  * Python floats that carry invoice money amounts, quantities and rates are
    modelled as exact rationals (ℚ); the comparator's range arithmetic, which
    feeds through `math.log2`, is modelled over ℝ with `Real.logb 2`.
    Binary floating-point representation error is outside the model.
  * `round(x, k)` and the fixed-point string formats are modelled with exact
    round-half-to-even on the rational value.
  * Human-readable note strings of comparator records are not needed by any
    theorem below and the ℝ-valued comparison record omits them; the decision
    synthesizer's strings (reason codes, questions, observations) are modelled
    in full, with the decimal rendering of numbers abstracted only in that a
    rational is printed by `toString` where Python prints a float repr.
  * `record_invoice` is state passing over a `LearnDB` value; the wall-clock
    metadata fields (`recorded_at`, `last_updated`) that Python stores are
    outside the model, as is the file I/O itself.
-/

namespace StackBirds

/-! ### Numeric display helpers (Python `f"{x:.2f}"` etc.) -/

/-- Round half to even, the rounding of Python `round` and `format` on the
exact value. -/
def roundHE {α : Type} [LinearOrderedField α] [FloorRing α] (x : α) : ℤ :=
  let f := ⌊x⌋
  if x - f < 1/2 then f
  else if x - f > 1/2 then f + 1
  else if f % 2 = 0 then f else f + 1

/-- Python `round(x, 2)`. -/
def round2 {α : Type} [LinearOrderedField α] [FloorRing α] (x : α) : α :=
  (roundHE (x * 100) : α) / 100

/-- Python `round(x, 1)`. -/
def round1 {α : Type} [LinearOrderedField α] [FloorRing α] (x : α) : α :=
  (roundHE (x * 10) : α) / 10

/-- Python `f"{q:.2f}"` on an exact rational. -/
def fmt2 (q : ℚ) : String :=
  let m := roundHE (q * 100)
  let a := m.natAbs
  (if m < 0 then "-" else "")
    ++ toString (a / 100) ++ "."
    ++ (if a % 100 < 10 then "0" else "") ++ toString (a % 100)

/-- Python `f"{q:.1f}"`. -/
def fmt1 (q : ℚ) : String :=
  let m := roundHE (q * 10)
  let a := m.natAbs
  (if m < 0 then "-" else "") ++ toString (a / 10) ++ "." ++ toString (a % 10)

/-- Python `f"{q:.0f}"`. -/
def fmt0 (q : ℚ) : String := toString (roundHE q)

/-- Format an optional price the way the decision synthesizer interpolates
`c['invoice_unit_price']` (always present on records it formats). -/
def fmt2o : Option ℚ → String
  | some q => fmt2 q
  | none => "None"

/-- Python string interpolation of a value that may be `None`. -/
def fmtStr (s : Option String) : String := s.getD "None"

/-- Python `f"{q}"` for a bare number (display-level abstraction of float
repr). -/
def fmtQ (q : ℚ) : String := toString q

/-! ### Policy constants (vendor_data.py) -/

def VALID_TAX_RATES : List ℚ := [0.0, 0.075, 0.0825, 0.095]

def TAX_TOLERANCE : ℚ := 0.005

def SHIPPING_MAX_SEEN : List (String × ℚ) :=
  [("Acme Supplies Inc.", 60.00), ("BrightOffice LLC", 60.00),
   ("Harbor Hardware", 40.00), ("Northstar IT Services", 40.00),
   ("Citywide Maintenance", 40.00), ("Orbit Software Ltd.", 60.00),
   ("Pioneer Logistics Co.", 40.00), ("GreenFields Produce", 40.00),
   ("Zenith Catering Group Inc", 60.00)]

/-! ### Data shapes consumed by the decision synthesizer -/

/-- The matcher's vendor-match record. -/
structure VendorMatch where
  match_type : String
  canonical_name : Option String
  confidence : ℚ
deriving DecidableEq

/-- The fields of a line-item comparison record that `decide` reads. -/
structure LineComp where
  status : String
  canonical_item : String
  invoice_unit_price : Option ℚ
  contracted_avg : Option ℚ
  contracted_range : Option String
  note : String
deriving DecidableEq

/-- A tax or shipping observation record. -/
structure CheckResult where
  status : String
  note : String
  effective_rate : Option ℚ := none
deriving DecidableEq

/-- The record `decide` returns. -/
structure DecisionRecord where
  status : String
  reason_codes : List String
  observations : List String
  clarifying_questions : List String
deriving DecidableEq

/-! ### decision.py — the vendor gate -/

def onboardingQuestion : String :=
  "This vendor is not in our approved vendor list. Is this a new vendor that needs onboarding, or a known vendor under a different name?"

def lowConfidenceQuestion (vm : VendorMatch) : String :=
  "Vendor matched to \x27" ++ fmtStr vm.canonical_name ++ "\x27 with only "
    ++ fmt0 (vm.confidence * 100) ++ "% confidence. Is this correct?"

def fuzzyObservation (vm : VendorMatch) : String :=
  "Vendor fuzzy-matched to \x27" ++ fmtStr vm.canonical_name ++ "\x27 ("
    ++ fmt0 (vm.confidence * 100) ++ "% confidence)."

def aliasObservation (vm : VendorMatch) : String :=
  "Vendor matched via known alias to \x27" ++ fmtStr vm.canonical_name ++ "\x27."

def vendorFlags (vm : VendorMatch) : List String :=
  if vm.match_type = "none" then ["VENDOR_NOT_IN_APPROVED_LIST"]
  else if vm.match_type = "fuzzy_low_confidence" then ["VENDOR_LOW_CONFIDENCE_MATCH"]
  else []

def vendorQuestions (vm : VendorMatch) : List String :=
  if vm.match_type = "none" then [onboardingQuestion]
  else if vm.match_type = "fuzzy_low_confidence" then [lowConfidenceQuestion vm]
  else []

def vendorObservations (vm : VendorMatch) : List String :=
  if vm.match_type = "none" then []
  else if vm.match_type = "fuzzy_low_confidence" then []
  else if vm.match_type = "fuzzy" then [fuzzyObservation vm]
  else if vm.match_type = "alias" then [aliasObservation vm]
  else []

/-! ### decision.py — the per-item rollup -/

def items_no_rate (comps : List LineComp) : List LineComp :=
  comps.filter fun c => c.status == "NO_CONTRACT_RATE"

def items_out_of_range (comps : List LineComp) : List LineComp :=
  comps.filter fun c => c.status == "OUT_OF_RANGE"

def items_outside_range (comps : List LineComp) : List LineComp :=
  comps.filter fun c => c.status == "OUTSIDE_RANGE"

def items_missing_price (comps : List LineComp) : List LineComp :=
  comps.filter fun c => c.status == "MISSING_PRICE"

/-- The `MISSING_PRICE` flags appended while partitioning the comparisons. -/
def missingPriceFlags (comps : List LineComp) : List String :=
  (items_missing_price comps).map fun c => "MISSING_PRICE:" ++ c.canonical_item

/-- `_assess_unknown_items`: items whose price looks reasonable. -/
def assessReasonable (items : List LineComp) : List String :=
  items.filterMap fun c =>
    match c.invoice_unit_price with
    | none => none
    | some p =>
        if 1.0 ≤ p ∧ p ≤ 1000.0 then
          some (c.canonical_item ++ " ($" ++ fmt2 p ++ ")")
        else none

/-- `_assess_unknown_items`: items whose price needs review. -/
def assessConcerning (items : List LineComp) : List String :=
  items.filterMap fun c =>
    match c.invoice_unit_price with
    | none => some c.canonical_item
    | some p =>
        if 1.0 ≤ p ∧ p ≤ 1000.0 then none
        else some (c.canonical_item ++ " ($" ++ fmt2 p ++ ")")

def assessObservations (items : List LineComp) : List String :=
  (if assessReasonable items ≠ [] then
    ["Prices appear reasonable: " ++ String.intercalate ", " (assessReasonable items) ++ "."]
   else []) ++
  (if assessConcerning items ≠ [] then
    ["Unusual pricing — needs review: " ++ String.intercalate ", " (assessConcerning items) ++ "."]
   else [])

def assessQuestion : String :=
  "This vendor has no invoice history. Is this a first-time order? Please confirm the prices match the agreed contract terms."

def noRateNames (comps : List LineComp) : List String :=
  (items_no_rate comps).map (·.canonical_item)

def newItemsQuestion (comps : List LineComp) : String :=
  "No historical pricing for: " ++ String.intercalate ", " (noRateNames comps)
    ++ ". Are these new products/services from this vendor? If approved, these prices become the baseline for future invoices."

def noRateFlags (vm : VendorMatch) (comps : List LineComp) : List String :=
  if items_no_rate comps = [] then []
  else if vm.match_type = "none" then ["VENDOR_NOT_IN_APPROVED_LIST"]
  else ["NEW_ITEMS_NO_RATE_HISTORY:" ++ String.intercalate ", " (noRateNames comps)]

def noRateQuestions (vm : VendorMatch) (comps : List LineComp) : List String :=
  if items_no_rate comps = [] then []
  else if vm.match_type = "none" then [assessQuestion]
  else [newItemsQuestion comps]

def noRateObservations (vm : VendorMatch) (comps : List LineComp) : List String :=
  if items_no_rate comps = [] then []
  else if vm.match_type = "none" then assessObservations (items_no_rate comps)
  else []

def anomalyDetail (c : LineComp) : String :=
  c.canonical_item ++ " ($" ++ fmt2o c.invoice_unit_price ++ " vs avg $"
    ++ fmt2o c.contracted_avg ++ " — " ++ ((c.note.splitOn ":").headD "") ++ ")"

def anomalyQuestion (comps : List LineComp) : String :=
  "Price anomalies beyond the 1.5x/0.75x threshold: "
    ++ String.intercalate "; " ((items_out_of_range comps).map anomalyDetail)
    ++ ". Please verify these prices with the vendor before approving."

def anomalyFlags (comps : List LineComp) : List String :=
  (items_out_of_range comps).map fun c => "PRICE_ANOMALY:" ++ c.canonical_item

def anomalyQuestions (comps : List LineComp) : List String :=
  if items_out_of_range comps = [] then [] else [anomalyQuestion comps]

def outsideDetail (c : LineComp) : String :=
  c.canonical_item ++ " ($" ++ fmt2o c.invoice_unit_price ++ " vs "
    ++ c.contracted_range.getD "None" ++ ")"

def outsideFlags (comps : List LineComp) : List String :=
  (items_outside_range comps).map fun c => "PRICE_OUTSIDE_RANGE:" ++ c.canonical_item

/-- `total_priced`: comparisons whose status is neither `MISSING_PRICE` nor
`NO_CONTRACT_RATE`. -/
def total_priced (comps : List LineComp) : ℕ :=
  (comps.filter fun c => !(c.status == "MISSING_PRICE" || c.status == "NO_CONTRACT_RATE")).length

def systemicQuestion : String :=
  "Every line item is priced outside the historical range. Has there been a contract renegotiation or pricing restructure?"

def outsideQuestions (comps : List LineComp) : List String :=
  if items_outside_range comps = [] then []
  else if (items_outside_range comps).length + (items_out_of_range comps).length
            = total_priced comps ∧ 1 < total_priced comps
  then [systemicQuestion]
  else []

def outsideObservations (comps : List LineComp) : List String :=
  if items_outside_range comps = [] then []
  else ["Price variance: "
    ++ String.intercalate "; " ((items_outside_range comps).map outsideDetail)
    ++ ". Verify with vendor."]

/-! ### decision.py — math, tax/shipping, extraction, assembly -/

def mathQuestion : String :=
  "The invoice math doesn\x27t add up. Is this a rounding issue, or could there be a missing line item or incorrect amount?"

def mathFlags (math_issues : List String) : List String :=
  if math_issues = [] then [] else ["MATH_DISCREPANCY"]

def mathObservations (math_issues : List String) : List String :=
  math_issues.map fun issue => "Math issue: " ++ issue

def mathQuestions (math_issues : List String) : List String :=
  if math_issues = [] then [] else [mathQuestion]

def taxObservations (tc : CheckResult) : List String :=
  if tc.status = "OBSERVATION" then ["Tax: " ++ tc.note]
  else if tc.status = "OK" then ["Tax: " ++ tc.note]
  else []

def shippingObservations (sc : CheckResult) : List String :=
  if sc.status = "OBSERVATION" then ["Shipping: " ++ sc.note]
  else if sc.status = "OK" then ["Shipping: " ++ sc.note]
  else []

def criticalWarnings (ws : List String) : List String :=
  ws.filter fun w => w == "NO_LINE_ITEMS_FOUND" || w == "EMPTY_PDF" || w == "MISSING_TOTAL"

def extractionFlags (ws : List String) : List String :=
  if criticalWarnings ws = [] then []
  else ["EXTRACTION_FAILURE:" ++ String.intercalate ", " (criticalWarnings ws)]

def nonCriticalWarnings (ws : List String) : List String :=
  ws.filter fun w => !(criticalWarnings ws).contains w

def extractionObservations (ws : List String) : List String :=
  if nonCriticalWarnings ws = [] then []
  else ["Extraction notes: " ++ String.intercalate ", " (nonCriticalWarnings ws)]

/-- The reason codes `decide` accumulates, in the order the Python code
appends them. -/
def decideFlags (vm : VendorMatch) (comps : List LineComp) (math_issues : List String)
    (ws : List String) : List String :=
  vendorFlags vm ++ missingPriceFlags comps ++ noRateFlags vm comps
    ++ anomalyFlags comps ++ outsideFlags comps ++ mathFlags math_issues
    ++ extractionFlags ws

/-- The observations `decide` accumulates, in order. -/
def decideObservations (vm : VendorMatch) (comps : List LineComp)
    (math_issues : List String) (tc sc : CheckResult) (ws : List String) : List String :=
  vendorObservations vm ++ noRateObservations vm comps ++ outsideObservations comps
    ++ mathObservations math_issues ++ taxObservations tc ++ shippingObservations sc
    ++ extractionObservations ws

/-- The clarifying questions generated by steps 1-5, in order, before the
default-question guarantee and the cap of 3. -/
def decideQuestions (vm : VendorMatch) (comps : List LineComp)
    (math_issues : List String) : List String :=
  vendorQuestions vm ++ noRateQuestions vm comps ++ anomalyQuestions comps
    ++ outsideQuestions comps ++ mathQuestions math_issues

def defaultQuestion : String :=
  "This invoice passed all automated checks. Please confirm the quantities and descriptions match what was actually received before final approval."

/-- decision.py `decide`. -/
def decide (vm : VendorMatch) (comps : List LineComp) (math_issues : List String)
    (tc sc : CheckResult) (ws : List String) : DecisionRecord :=
  let flags := decideFlags vm comps math_issues ws
  let questions := decideQuestions vm comps math_issues
  let questions := if questions = [] then [defaultQuestion] else questions
  { status := if flags.length = 0 then "APPROVED" else "FLAGGED"
    reason_codes := flags
    observations := decideObservations vm comps math_issues tc sc ws
    clarifying_questions := questions.take 3 }

/-! ### comparator.py — math, tax and shipping checks (exact rationals) -/

/-- One extracted invoice line item. -/
structure LineItem where
  description : Option String
  quantity : Option ℚ
  unit_price : Option ℚ
  line_total : Option ℚ
deriving DecidableEq

/-- The per-line check of `check_math`: `None`, and by Python truthiness also
`0`, in any of the three fields skips the line. -/
def lineIssue (item : LineItem) : Option String :=
  match item.quantity, item.unit_price, item.line_total with
  | some qty, some price, some line_total =>
      if qty ≠ 0 ∧ price ≠ 0 ∧ line_total ≠ 0 then
        let expected := round2 (qty * price)
        if |expected - line_total| > 0.50 then
          some ("Line math: " ++ fmtStr item.description ++ " — " ++ fmtQ qty
            ++ " x $" ++ fmt2 price ++ " = $" ++ fmt2 expected
            ++ ", but invoice shows $" ++ fmt2 line_total)
        else none
      else none
  | _, _, _ => none

def subtotalIssue (line_items : List LineItem) (subtotal : Option ℚ) : Option String :=
  match subtotal with
  | none => none
  | some st =>
      let line_sum := (line_items.map fun i => i.line_total.getD 0).sum
      if |line_sum - st| > 1.00 then
        some ("Subtotal: lines sum to $" ++ fmt2 line_sum ++ ", invoice shows $" ++ fmt2 st)
      else none

def totalIssue (subtotal tax shipping total : Option ℚ) : Option String :=
  match total, subtotal with
  | some t, some st =>
      let expected_total := st + tax.getD 0 + shipping.getD 0
      if |expected_total - t| > 1.00 then
        some ("Total: $" ++ fmt2 st ++ " + tax($" ++ fmt2 (tax.getD 0)
          ++ ") + shipping($" ++ fmt2 (shipping.getD 0) ++ ") = $"
          ++ fmt2 expected_total ++ ", but invoice shows $" ++ fmt2 t)
      else none
  | _, _ => none

/-- comparator.py `check_math`. -/
def check_math (line_items : List LineItem) (subtotal tax shipping total : Option ℚ) :
    List String :=
  line_items.filterMap lineIssue
    ++ (subtotalIssue line_items subtotal).toList
    ++ (totalIssue subtotal tax shipping total).toList

/-- comparator.py `check_tax`. -/
def check_tax (vendor_name : String) (subtotal tax : Option ℚ) : CheckResult :=
  match subtotal, tax with
  | some st, some tx =>
      if tx = 0 then
        { status := "OBSERVATION"
          note := "No tax charged ($0). Could be tax-exempt or bundled into unit prices." }
      else
        let effective_rate := if st > 0 then tx / st else 0
        match VALID_TAX_RATES.find? fun r =>
            Decidable.decide (r > 0) && Decidable.decide (|effective_rate - r| ≤ TAX_TOLERANCE) with
        | some r =>
            { status := "OK"
              effective_rate := some (round2 (effective_rate * 100))
              note := "Tax rate " ++ fmt2 (effective_rate * 100)
                ++ "% matches known rate " ++ fmt1 (r * 100) ++ "%." }
        | none =>
            { status := "OBSERVATION"
              effective_rate := some (round2 (effective_rate * 100))
              note := "Tax rate " ++ fmt2 (effective_rate * 100)
                ++ "% doesn\x27t match known rates ("
                ++ String.intercalate ", "
                    (((VALID_TAX_RATES.filter fun r => Decidable.decide (r > 0)).map
                      fun r => fmt1 (r * 100) ++ "%")) ++ ")." }
  | _, _ => { status := "OBSERVATION", note := "Missing subtotal or tax value." }

/-- comparator.py `check_shipping`. -/
def check_shipping (vendor_name : String) (shipping : Option ℚ) : CheckResult :=
  let max_seen := (SHIPPING_MAX_SEEN.find? fun e => e.1 == vendor_name).map (·.2)
  match shipping with
  | none => { status := "OBSERVATION", note := "No shipping field found." }
  | some s =>
      if s = 0 then { status := "OK", note := "No shipping charged." }
      else
        match max_seen with
        | none =>
            { status := "OBSERVATION"
              note := "Shipping $" ++ fmt2 s ++ ". No history to compare." }
        | some m =>
            if s ≤ m then
              { status := "OK"
                note := "Shipping $" ++ fmt2 s ++ " within norms (max seen: $" ++ fmt2 m ++ ")." }
            else
              { status := "OBSERVATION"
                note := "Shipping $" ++ fmt2 s ++ " above max seen ($" ++ fmt2 m
                  ++ "). Could be distance/rush." }

/-! ### vendor_db.py — the learning store as explicit state -/

/-- The extractor's invoice record, as `record_invoice` reads it. -/
structure InvoiceData where
  invoice_number : Option String
  invoice_date : Option String
  total : Option ℚ
  tax : Option ℚ
  shipping : Option ℚ
  line_items : List LineItem
deriving DecidableEq

/-- One entry of the store's `invoices` list (timestamp omitted). -/
structure InvoiceEntry where
  invoice_number : String
  vendor : String
  date : Option String
  total : Option ℚ
  tax : Option ℚ
  shipping : Option ℚ
deriving DecidableEq

/-- One appended price-history point. -/
structure PricePoint where
  unit_price : Option ℚ
  quantity : Option ℚ
  line_total : Option ℚ
  date : Option String
  invoice_id : String
deriving DecidableEq

/-- The learning store's document: `invoices` plus the `price_history`
mapping, as an insertion-ordered association list. -/
structure LearnDB where
  invoices : List InvoiceEntry
  price_history : List (String × List PricePoint)
deriving DecidableEq

/-- Append one point under a key, creating the key at the end if absent
(Python dict insertion order). -/
def addPoint (hist : List (String × List PricePoint)) (key : String) (pt : PricePoint) :
    List (String × List PricePoint) :=
  if hist.any fun e => e.1 == key then
    hist.map fun e => if e.1 == key then (e.1, e.2 ++ [pt]) else e
  else hist ++ [(key, [pt])]

/-- vendor_db.py `record_invoice`, as a pure state transformer on the store. -/
def record_invoice (invoice_data : InvoiceData) (decision_status : String)
    (vendor_name : String) (db : LearnDB) : LearnDB :=
  if decision_status ≠ "APPROVED" then db
  else
    let invoice_id := invoice_data.invoice_number.getD "UNKNOWN"
    if (db.invoices.map (·.invoice_number)).contains invoice_id then db
    else
      let invoices := db.invoices ++
        [{ invoice_number := invoice_id, vendor := vendor_name
           date := invoice_data.invoice_date, total := invoice_data.total
           tax := invoice_data.tax, shipping := invoice_data.shipping }]
      let hist := invoice_data.line_items.foldl
        (fun h item =>
          let desc := (item.description.getD "").trim
          if desc = "" then h
          else addPoint h (vendor_name ++ "|" ++ desc)
            { unit_price := item.unit_price, quantity := item.quantity
              line_total := item.line_total, date := invoice_data.invoice_date
              invoice_id := invoice_id })
        db.price_history
      { invoices := invoices, price_history := hist }

/-! ### comparator.py — price range evaluation (over ℝ, since the quantity
adjustment runs through `math.log2`) -/

noncomputable section RangeEvaluation

def PRICE_RANGE_BUFFER : ℝ := 0.15

def MAX_PRICE_RATIO_HIGH : ℝ := 1.5

def MAX_PRICE_RATIO_LOW : ℝ := 0.75

/-- comparator.py `_quantity_adjustment_factor`. The Python truthiness test
`not invoice_qty or not historical_avg_qty or historical_avg_qty <= 0` is the
first disjunction. -/
def quantity_adjustment_factor (invoice_qty historical_avg_qty : ℝ) : ℝ :=
  if invoice_qty = 0 ∨ historical_avg_qty = 0 ∨ historical_avg_qty ≤ 0 then 1.0
  else
    let qty_ratio := invoice_qty / historical_avg_qty
    if 0.5 ≤ qty_ratio ∧ qty_ratio ≤ 2.0 then 1.0
    else max 0.4 (min 2.0 (1.0 / (1.0 + 0.25 * Real.logb 2 (max qty_ratio 0.1))))

/-- One raw price-history record (`{"price": .., "qty": ..}`). -/
structure PriceRecord where
  price : ℝ
  qty : Option ℝ

/-- The summary statistics `_summarize_history` derives (the audit-trail
`prices` list is carried nowhere and omitted). Python `min`/`max` require a
nonempty record list; on `[]` this total model yields 0. -/
structure RateData where
  n : ℕ
  min : ℝ
  max : ℝ
  avg : ℝ
  avg_qty : ℝ

/-- comparator.py `_summarize_history`. A `qty` of `None` or `0` is falsy and
excluded from the quantity average. -/
def summarize_history (records : List PriceRecord) : RateData :=
  let prices := records.map (·.price)
  let qtys := records.filterMap fun r =>
    match r.qty with
    | none => none
    | some q => if q = 0 then none else some q
  { n := prices.length
    min := match prices with | [] => 0 | p :: ps => ps.foldl Min.min p
    max := match prices with | [] => 0 | p :: ps => ps.foldl Max.max p
    avg := prices.sum / (prices.length : ℝ)
    avg_qty := if qtys = [] then 1 else qtys.sum / (qtys.length : ℝ) }

/-- `invoice_qty = item.get("quantity") or 1`: an absent or zero quantity is
replaced by 1 before the adjustment factor is computed. -/
def orOne : Option ℚ → ℚ
  | none => 1
  | some q => if q = 0 then 1 else q

/-- The quantity adjustment factor `compare_line_items` applies to an item
(lines 79 and 127-128 of comparator.py). -/
def appliedQtyFactor (rd : RateData) (item : LineItem) : ℝ :=
  quantity_adjustment_factor ((orOne item.quantity : ℚ) : ℝ) rd.avg_qty

/-- `sample_buffer = PRICE_RANGE_BUFFER + max(0, (5 - n) * 0.10)`. -/
def sample_buffer (n : ℕ) : ℝ := PRICE_RANGE_BUFFER + max 0 ((5 - (n : ℝ)) * 0.10)

def adjusted_min (rd : RateData) (qf : ℝ) : ℝ := rd.min * (1 - sample_buffer rd.n) * qf

def adjusted_max (rd : RateData) (qf : ℝ) : ℝ := rd.max * (1 + sample_buffer rd.n) * max qf 1.0

def adjusted_avg (rd : RateData) (qf : ℝ) : ℝ := rd.avg * qf

/-- The comparison record for one line item, without the display strings
(`contracted_range`, `note`), which no theorem below concerns. -/
structure LineEvaluation where
  description : Option String
  canonical_item : String
  quantity : Option ℚ
  invoice_unit_price : Option ℚ
  invoice_line_total : Option ℚ
  contracted_avg : Option ℝ
  variance_from_avg_pct : Option ℝ
  status : String
  data_points : ℕ
  qty_adjustment : Option ℝ

/-- The body of the `compare_line_items` loop for one item, given the
resolved rate data (comparator.py lines 94-191). -/
def evaluate_line_item (rate_data : Option RateData) (canonical_item : String)
    (item : LineItem) : LineEvaluation :=
  match rate_data with
  | none =>
      { description := item.description, canonical_item
        quantity := item.quantity, invoice_unit_price := item.unit_price
        invoice_line_total := item.line_total
        contracted_avg := none, variance_from_avg_pct := none
        status := "NO_CONTRACT_RATE", data_points := 0, qty_adjustment := none }
  | some rd =>
      match item.unit_price with
      | none =>
          { description := item.description, canonical_item
            quantity := item.quantity, invoice_unit_price := none
            invoice_line_total := item.line_total
            contracted_avg := some rd.avg, variance_from_avg_pct := none
            status := "MISSING_PRICE", data_points := rd.n, qty_adjustment := none }
      | some price =>
          let invoice_price : ℝ := (price : ℚ)
          let qty_factor := appliedQtyFactor rd item
          let amin := adjusted_min rd qty_factor
          let amax := adjusted_max rd qty_factor
          let aavg := adjusted_avg rd qty_factor
          let variance := if aavg > 0 then ((invoice_price - aavg) / aavg) * 100 else 0
          let status :=
            if amin ≤ invoice_price ∧ invoice_price ≤ amax then "IN_RANGE"
            else
              let pr := if aavg > 0 then invoice_price / aavg else 999
              if pr > MAX_PRICE_RATIO_HIGH ∨ pr < MAX_PRICE_RATIO_LOW then "OUT_OF_RANGE"
              else "OUTSIDE_RANGE"
          { description := item.description, canonical_item
            quantity := item.quantity, invoice_unit_price := some price
            invoice_line_total := item.line_total
            contracted_avg := some rd.avg
            variance_from_avg_pct := some (round1 variance)
            status := status, data_points := rd.n
            qty_adjustment := if qty_factor ≠ 1.0 then some (round2 qty_factor) else none }

/-- comparator.py `compare_line_items`, with its collaborators (the static
price-history table, the learning store and the item normalizer) passed as
functions. `if history:` is Python truthiness: an empty history list also
falls through to the learning store. -/
def compare_line_items (price_history : String → String → Option (List PriceRecord))
    (learned_rate : String → String → Option RateData)
    (normalize : String → String) (vendor_name : String)
    (line_items : List LineItem) : List LineEvaluation :=
  line_items.map fun item =>
    let canonical := normalize (item.description.getD "")
    let hist := (price_history vendor_name canonical).getD []
    let rd := if hist.isEmpty then learned_rate vendor_name canonical
              else some (summarize_history hist)
    evaluate_line_item rd canonical item

end RangeEvaluation

/-! ### Concrete sample data used by witnesses and counterexamples -/

def vmExact : VendorMatch :=
  { match_type := "exact", canonical_name := some "Acme Supplies Inc.", confidence := 1 }

def vmNone : VendorMatch :=
  { match_type := "none", canonical_name := none, confidence := 0 }

def taxOKSample : CheckResult :=
  { status := "OK", note := "Tax rate 7.50% matches known rate 7.5%." }

def shipOKSample : CheckResult :=
  { status := "OK", note := "No shipping charged." }

def compNoRate : LineComp :=
  { status := "NO_CONTRACT_RATE", canonical_item := "Ergonomic Chair"
    invoice_unit_price := none, contracted_avg := none, contracted_range := none
    note := "No historical rate data." }

def compOutA : LineComp :=
  { status := "OUT_OF_RANGE", canonical_item := "A4 Paper Box"
    invoice_unit_price := some 200, contracted_avg := some (6597/100)
    contracted_range := some "$24.19 - $84.99"
    note := "OVERPRICED: $200.00 is 3.0x the historical avg ($65.97)." }

def compOutB : LineComp :=
  { status := "OUT_OF_RANGE", canonical_item := "Stapler"
    invoice_unit_price := some 50, contracted_avg := some 10
    contracted_range := some "$8.00 - $12.00"
    note := "OVERPRICED: $50.00 is 5.0x the historical avg ($10.00)." }

def compOutsideA : LineComp :=
  { status := "OUTSIDE_RANGE", canonical_item := "Desk Lamp"
    invoice_unit_price := some 30, contracted_avg := some 20
    contracted_range := some "$15.00 - $22.00"
    note := "$30.00 is above the historical range." }

def compOutsideB : LineComp :=
  { status := "OUTSIDE_RANGE", canonical_item := "Monitor Stand"
    invoice_unit_price := some 45, contracted_avg := some 32
    contracted_range := some "$28.00 - $36.00"
    note := "$45.00 is above the historical range." }

def sampleItem : LineItem :=
  { description := some "A4 Paper Box", quantity := some 2
    unit_price := some 45, line_total := some 90 }

def sampleInvoice : InvoiceData :=
  { invoice_number := some "INV-1001", invoice_date := some "2024-01-15"
    total := some 97.5, tax := some 7.5, shipping := some 0
    line_items := [sampleItem] }

def emptyDB : LearnDB := { invoices := [], price_history := [] }

/-- A line item whose stated line total is far from quantity times price but
whose line total is `0`, hence falsy for `check_math`. -/
def zeroTotalItem : LineItem :=
  { description := some "Widget", quantity := some 1
    unit_price := some 10, line_total := some 0 }

noncomputable section SampleRates

/-- A rate statistic with average historical quantity 4: with the invoice
quantity absent, `compare_line_items` substitutes quantity 1, and the
adjustment factor becomes 2, not 1. -/
def rdQty4 : RateData := { n := 1, min := 100, max := 100, avg := 100, avg_qty := 4 }

/-- An item with no parsed quantity. -/
def itemNoQty : LineItem :=
  { description := some "Widget", quantity := none, unit_price := some 90, line_total := none }

/-- Five data points, flat history at $100, neutral quantity. -/
def rdFlat : RateData := { n := 5, min := 100, max := 100, avg := 100, avg_qty := 1 }

/-- Invoice price $200 at quantity 1: twice the adjusted average. -/
def itemPrice200 : LineItem :=
  { description := some "Toner", quantity := some 1, unit_price := some 200, line_total := some 200 }

/-- Three data points with average historical quantity 1. -/
def rdNeutral : RateData := { n := 3, min := 10, max := 20, avg := 15, avg_qty := 1 }

end SampleRates

/-- The discriminating token of a reason code: its characters before the
first colon. Every reason code `decide` emits starts with a fixed token of
its category, so codes of different categories are distinct strings. -/
def flagKey (s : String) : List Char := s.data.takeWhile fun ch => ch != ':'

/-! ## Theorems -/

/-! ### String facts -/

theorem ne_of_not_prefix {s p : String} (h : ¬ p.data <+: s.data) (x : String) :
    s ≠ p ++ x := by
  intro he
  exact h (he ▸ ⟨x.data, (String.data_append p x).symm⟩)

theorem append_left_injective (p : String) : Function.Injective (fun x => p ++ x) := by
  intro a b hab
  apply String.ext
  have hd := congrArg String.data hab
  have hd2 : p.data ++ a.data = p.data ++ b.data := by
    simpa only [String.data_append] using hd
  exact List.append_cancel_left hd2

theorem flagKey_append (p x : String)
    (h : (p.data.takeWhile fun ch => ch != ':').length ≠ p.data.length) :
    flagKey (p ++ x) = flagKey p := by
  unfold flagKey
  rw [String.data_append, List.takeWhile_append, if_neg h]

theorem disjoint_of_keyFun {l₁ l₂ : List String} {K₁ K₂ : List (List Char)}
    (h1 : ∀ s ∈ l₁, flagKey s ∈ K₁) (h2 : ∀ s ∈ l₂, flagKey s ∈ K₂)
    (hK : ∀ k₁ ∈ K₁, k₁ ∉ K₂) : l₁.Disjoint l₂ :=
  fun s hs1 hs2 => hK _ (h1 s hs1) (h2 s hs2)

/-! ### C5: the systemic-pricing question -/

/-- When every priced comparison is OUT_OF_RANGE or OUTSIDE_RANGE, the two
bucket sizes sum to the priced count. -/
theorem outside_add_out_eq_total_priced (comps : List LineComp)
    (h : ∀ c ∈ comps, ¬(c.status = "MISSING_PRICE" ∨ c.status = "NO_CONTRACT_RATE") →
      c.status = "OUT_OF_RANGE" ∨ c.status = "OUTSIDE_RANGE") :
    (items_outside_range comps).length + (items_out_of_range comps).length
      = total_priced comps := by
  induction comps with
  | nil => rfl
  | cons c l ih =>
    have hl : ∀ x ∈ l, ¬(x.status = "MISSING_PRICE" ∨ x.status = "NO_CONTRACT_RATE") →
        x.status = "OUT_OF_RANGE" ∨ x.status = "OUTSIDE_RANGE" :=
      fun x hx => h x (List.mem_cons_of_mem _ hx)
    have hi := ih hl
    have hc := h c (List.mem_cons_self _ _)
    by_cases hmp : c.status = "MISSING_PRICE"
    · simp only [items_outside_range, items_out_of_range, total_priced,
        List.filter_cons, hmp] at hi ⊢
      simpa using hi
    · by_cases hnr : c.status = "NO_CONTRACT_RATE"
      · simp only [items_outside_range, items_out_of_range, total_priced,
          List.filter_cons, hnr] at hi ⊢
        simpa using hi
      · rcases hc (by tauto) with hout | houts
        · simp only [items_outside_range, items_out_of_range, total_priced,
            List.filter_cons, hout] at hi ⊢
          simp at hi ⊢
          omega
        · simp only [items_outside_range, items_out_of_range, total_priced,
            List.filter_cons, houts] at hi ⊢
          simp at hi ⊢
          omega

/-- C5 (amended): when every priced comparison is OUT_OF_RANGE or
OUTSIDE_RANGE, more than one item was priced, and at least one comparison is
OUTSIDE_RANGE, the systemic-pricing question is among the questions generated
by the synthesizer (before the cap of 3). -/
theorem systemic_question_emitted
    (vm : VendorMatch) (comps : List LineComp) (math_issues : List String)
    (h1 : ∀ c ∈ comps, ¬(c.status = "MISSING_PRICE" ∨ c.status = "NO_CONTRACT_RATE") →
      c.status = "OUT_OF_RANGE" ∨ c.status = "OUTSIDE_RANGE")
    (h2 : 1 < total_priced comps)
    (h3 : ∃ c ∈ comps, c.status = "OUTSIDE_RANGE") :
    systemicQuestion ∈ decideQuestions vm comps math_issues := by
  have hne : items_outside_range comps ≠ [] := by
    obtain ⟨c, hc, hs⟩ := h3
    have hmem : c ∈ items_outside_range comps := by
      simp [items_outside_range, List.mem_filter, hc, hs]
    intro he
    rw [he] at hmem
    exact absurd hmem (List.not_mem_nil c)
  have hcount := outside_add_out_eq_total_priced comps h1
  have hq : outsideQuestions comps = [systemicQuestion] := by
    rw [outsideQuestions, if_neg hne, if_pos ⟨hcount, h2⟩]
  simp [decideQuestions, hq]

/-- C5 witness: two OUTSIDE_RANGE items with a cleanly matched vendor. -/
theorem systemic_question_emitted_witness :
    systemicQuestion ∈ decideQuestions vmExact [compOutsideA, compOutsideB] [] :=
  systemic_question_emitted vmExact [compOutsideA, compOutsideB] []
    (by decide) (by decide) (by decide)

/-- C5 counterexample: with two priced items, both OUT_OF_RANGE (so every
priced item deviates and more than one was priced), no systemic-pricing
question is generated at all — the pattern detection only runs when at least
one item is OUTSIDE_RANGE. -/
theorem systemic_question_counterexample :
    (∀ c ∈ [compOutA, compOutB],
        ¬(c.status = "MISSING_PRICE" ∨ c.status = "NO_CONTRACT_RATE") →
          c.status = "OUT_OF_RANGE" ∨ c.status = "OUTSIDE_RANGE")
    ∧ 1 < total_priced [compOutA, compOutB]
    ∧ systemicQuestion ∉ decideQuestions vmExact [compOutA, compOutB] []
    ∧ systemicQuestion ∉
        (decide vmExact [compOutA, compOutB] [] taxOKSample shipOKSample []).clarifying_questions := by
  have hone : decideQuestions vmExact [compOutA, compOutB] []
      = [anomalyQuestion [compOutA, compOutB]] := rfl
  have htwo : (decide vmExact [compOutA, compOutB] [] taxOKSample shipOKSample []).clarifying_questions
      = [anomalyQuestion [compOutA, compOutB]] := rfl
  have hne : systemicQuestion ≠ anomalyQuestion [compOutA, compOutB] := by
    rw [anomalyQuestion, String.append_assoc]
    exact ne_of_not_prefix (by decide) _
  refine ⟨by decide, by decide, ?_, ?_⟩
  · rw [hone]
    simpa using hne
  · rw [htwo]
    simpa using hne

/-! ### C7: duplicate-freeness of reason codes -/

theorem vendorFlags_keys (vm : VendorMatch) :
    ∀ s ∈ vendorFlags vm,
      flagKey s ∈ [flagKey "VENDOR_NOT_IN_APPROVED_LIST",
        flagKey "VENDOR_LOW_CONFIDENCE_MATCH"] := by
  intro s hs
  by_cases h1 : vm.match_type = "none"
  · simp [vendorFlags, h1] at hs
    simp [hs]
  · by_cases h2 : vm.match_type = "fuzzy_low_confidence"
    · simp [vendorFlags, h1, h2] at hs
      simp [hs]
    · simp [vendorFlags, h1, h2] at hs

theorem missingPriceFlags_keys (comps : List LineComp) :
    ∀ s ∈ missingPriceFlags comps, flagKey s ∈ [flagKey "MISSING_PRICE:"] := by
  intro s hs
  simp only [missingPriceFlags, List.mem_map] at hs
  obtain ⟨c, -, rfl⟩ := hs
  exact List.mem_singleton.mpr (flagKey_append _ _ (by decide))

theorem noRateFlags_keys (vm : VendorMatch) (comps : List LineComp)
    (hA : vm.match_type ≠ "none" ∨ items_no_rate comps = []) :
    ∀ s ∈ noRateFlags vm comps, flagKey s ∈ [flagKey "NEW_ITEMS_NO_RATE_HISTORY:"] := by
  intro s hs
  by_cases he : items_no_rate comps = []
  · simp [noRateFlags, he] at hs
  · have hmt : vm.match_type ≠ "none" := hA.resolve_right he
    simp [noRateFlags, he, hmt] at hs
    subst hs
    exact List.mem_singleton.mpr (flagKey_append _ _ (by decide))

theorem anomalyFlags_keys (comps : List LineComp) :
    ∀ s ∈ anomalyFlags comps, flagKey s ∈ [flagKey "PRICE_ANOMALY:"] := by
  intro s hs
  simp only [anomalyFlags, List.mem_map] at hs
  obtain ⟨c, -, rfl⟩ := hs
  exact List.mem_singleton.mpr (flagKey_append _ _ (by decide))

theorem outsideFlags_keys (comps : List LineComp) :
    ∀ s ∈ outsideFlags comps, flagKey s ∈ [flagKey "PRICE_OUTSIDE_RANGE:"] := by
  intro s hs
  simp only [outsideFlags, List.mem_map] at hs
  obtain ⟨c, -, rfl⟩ := hs
  exact List.mem_singleton.mpr (flagKey_append _ _ (by decide))

theorem mathFlags_keys (math_issues : List String) :
    ∀ s ∈ mathFlags math_issues, flagKey s ∈ [flagKey "MATH_DISCREPANCY"] := by
  intro s hs
  by_cases h : math_issues = []
  · simp [mathFlags, h] at hs
  · simp [mathFlags, h] at hs
    simp [hs]

theorem extractionFlags_keys (ws : List String) :
    ∀ s ∈ extractionFlags ws, flagKey s ∈ [flagKey "EXTRACTION_FAILURE:"] := by
  intro s hs
  by_cases h : criticalWarnings ws = []
  · simp [extractionFlags, h] at hs
  · simp [extractionFlags, h] at hs
    subst hs
    exact List.mem_singleton.mpr (flagKey_append _ _ (by decide))

/-- Prefixing pairwise-distinct canonical item names with a category token
keeps them pairwise distinct. -/
theorem nodup_prefixed (comps : List LineComp) (p : String) (f : LineComp → Bool)
    (hnd : (comps.map (·.canonical_item)).Nodup) :
    ((comps.filter f).map fun c => p ++ c.canonical_item).Nodup := by
  have hsub : ((comps.filter f).map (·.canonical_item)).Sublist
      (comps.map (·.canonical_item)) :=
    (List.filter_sublist comps).map _
  have hnd2 : ((comps.filter f).map (·.canonical_item)).Nodup :=
    List.Nodup.sublist hsub hnd
  have hmm : ((comps.filter f).map fun c => p ++ c.canonical_item)
      = ((comps.filter f).map (·.canonical_item)).map fun x => p ++ x := by
    rw [List.map_map]
    rfl
  rw [hmm]
  exact hnd2.map (append_left_injective p)

theorem nodup_vendorFlags (vm : VendorMatch) : (vendorFlags vm).Nodup := by
  by_cases h1 : vm.match_type = "none"
  · simp [vendorFlags, h1]
  · by_cases h2 : vm.match_type = "fuzzy_low_confidence" <;> simp [vendorFlags, h1, h2]

theorem nodup_noRateFlags (vm : VendorMatch) (comps : List LineComp) :
    (noRateFlags vm comps).Nodup := by
  by_cases he : items_no_rate comps = []
  · simp [noRateFlags, he]
  · by_cases h1 : vm.match_type = "none" <;> simp [noRateFlags, he, h1]

theorem nodup_mathFlags (math_issues : List String) : (mathFlags math_issues).Nodup := by
  by_cases h : math_issues = [] <;> simp [mathFlags, h]

theorem nodup_extractionFlags (ws : List String) : (extractionFlags ws).Nodup := by
  by_cases h : criticalWarnings ws = [] <;> simp [extractionFlags, h]

/-- C7 (amended): a decision record's reason codes are pairwise distinct
provided the comparisons carry pairwise-distinct canonical item names and it
is not the case that an unmatched vendor coincides with a NO_CONTRACT_RATE
item (in that one situation `VENDOR_NOT_IN_APPROVED_LIST` is appended a
second time). -/
theorem decide_reason_codes_nodup
    (vm : VendorMatch) (comps : List LineComp) (math_issues : List String)
    (tc sc : CheckResult) (ws : List String)
    (hA : vm.match_type ≠ "none" ∨ items_no_rate comps = [])
    (hnd : (comps.map (·.canonical_item)).Nodup) :
    (decide vm comps math_issues tc sc ws).reason_codes.Nodup := by
  have hV := vendorFlags_keys vm
  have hM := missingPriceFlags_keys comps
  have hN := noRateFlags_keys vm comps hA
  have hAn := anomalyFlags_keys comps
  have hO := outsideFlags_keys comps
  have hMa := mathFlags_keys math_issues
  have hE := extractionFlags_keys ws
  have nV := nodup_vendorFlags vm
  have nM : (missingPriceFlags comps).Nodup := nodup_prefixed comps _ _ hnd
  have nN := nodup_noRateFlags vm comps
  have nAn : (anomalyFlags comps).Nodup := nodup_prefixed comps _ _ hnd
  have nO : (outsideFlags comps).Nodup := nodup_prefixed comps _ _ hnd
  have nMa := nodup_mathFlags math_issues
  have nE := nodup_extractionFlags ws
  show (decideFlags vm comps math_issues ws).Nodup
  unfold decideFlags
  simp only [List.append_assoc]
  refine List.Nodup.append nV ?_ ?_
  · refine List.Nodup.append nM ?_ ?_
    · refine List.Nodup.append nN ?_ ?_
      · refine List.Nodup.append nAn ?_ ?_
        · refine List.Nodup.append nO ?_ ?_
          · exact List.Nodup.append nMa nE (disjoint_of_keyFun hMa hE (by decide))
          · rw [List.disjoint_append_right]
            exact ⟨disjoint_of_keyFun hO hMa (by decide),
              disjoint_of_keyFun hO hE (by decide)⟩
        · rw [List.disjoint_append_right, List.disjoint_append_right]
          exact ⟨disjoint_of_keyFun hAn hO (by decide),
            disjoint_of_keyFun hAn hMa (by decide),
            disjoint_of_keyFun hAn hE (by decide)⟩
      · rw [List.disjoint_append_right, List.disjoint_append_right,
          List.disjoint_append_right]
        exact ⟨disjoint_of_keyFun hN hAn (by decide),
          disjoint_of_keyFun hN hO (by decide),
          disjoint_of_keyFun hN hMa (by decide),
          disjoint_of_keyFun hN hE (by decide)⟩
    · rw [List.disjoint_append_right, List.disjoint_append_right,
        List.disjoint_append_right, List.disjoint_append_right]
      exact ⟨disjoint_of_keyFun hM hN (by decide),
        disjoint_of_keyFun hM hAn (by decide),
        disjoint_of_keyFun hM hO (by decide),
        disjoint_of_keyFun hM hMa (by decide),
        disjoint_of_keyFun hM hE (by decide)⟩
  · rw [List.disjoint_append_right, List.disjoint_append_right,
      List.disjoint_append_right, List.disjoint_append_right,
      List.disjoint_append_right]
    exact ⟨disjoint_of_keyFun hV hM (by decide),
      disjoint_of_keyFun hV hN (by decide),
      disjoint_of_keyFun hV hAn (by decide),
      disjoint_of_keyFun hV hO (by decide),
      disjoint_of_keyFun hV hMa (by decide),
      disjoint_of_keyFun hV hE (by decide)⟩

/-- C7 witness: a flagged invoice with distinct items has distinct reason
codes. -/
theorem decide_reason_codes_nodup_witness :
    (decide vmExact [compOutA, compOutsideA] [] taxOKSample shipOKSample []).reason_codes.Nodup :=
  decide_reason_codes_nodup vmExact [compOutA, compOutsideA] [] taxOKSample shipOKSample []
    (by decide) (by decide)

/-- C7 counterexample: with an unmatched vendor and one NO_CONTRACT_RATE
item, `VENDOR_NOT_IN_APPROVED_LIST` appears twice in the reason codes of a
single decision record. -/
theorem decide_reason_codes_duplicate :
    (decide vmNone [compNoRate] [] taxOKSample shipOKSample []).reason_codes
      = ["VENDOR_NOT_IN_APPROVED_LIST", "VENDOR_NOT_IN_APPROVED_LIST"]
    ∧ ¬ (decide vmNone [compNoRate] [] taxOKSample shipOKSample []).reason_codes.Nodup := by
  constructor
  · rfl
  · decide

/-! ### C6: the math validator -/

/-- C6 (amended): a line whose quantity, unit price and line total are all
present and non-zero and whose rounded product deviates from the stated line
total by more than $0.50 contributes its issue string to `check_math`; the
whole issue list is empty exactly when the per-line, subtotal and grand-total
checks all pass. -/
theorem check_math_line_issue
    (line_items : List LineItem) (subtotal tax shipping total : Option ℚ) :
    (check_math line_items subtotal tax shipping total = [] ↔
      (∀ i ∈ line_items, lineIssue i = none)
        ∧ subtotalIssue line_items subtotal = none
        ∧ totalIssue subtotal tax shipping total = none)
    ∧ ∀ i ∈ line_items, ∀ q p lt : ℚ,
        i.quantity = some q → i.unit_price = some p → i.line_total = some lt →
        q ≠ 0 → p ≠ 0 → lt ≠ 0 → |round2 (q * p) - lt| > 0.50 →
        ∃ s, lineIssue i = some s
          ∧ s ∈ check_math line_items subtotal tax shipping total := by
  constructor
  · rw [check_math]
    rw [List.append_assoc, List.append_eq_nil, List.append_eq_nil,
      List.filterMap_eq_nil]
    constructor
    · rintro ⟨ha, hb, hc⟩
      refine ⟨ha, ?_, ?_⟩
      · cases h : subtotalIssue line_items subtotal with
        | none => rfl
        | some s => rw [h] at hb; exact absurd hb (by simp)
      · cases h : totalIssue subtotal tax shipping total with
        | none => rfl
        | some s => rw [h] at hc; exact absurd hc (by simp)
    · rintro ⟨ha, hb, hc⟩
      exact ⟨ha, by rw [hb]; rfl, by rw [hc]; rfl⟩
  · intro i hi q p lt hq hp hlt hq0 hp0 hlt0 hgt
    have hsome : lineIssue i = some ("Line math: " ++ fmtStr i.description ++ " — "
        ++ fmtQ q ++ " x $" ++ fmt2 p ++ " = $" ++ fmt2 (round2 (q * p))
        ++ ", but invoice shows $" ++ fmt2 lt) := by
      simp only [lineIssue, hq, hp, hlt]
      rw [if_pos ⟨hq0, hp0, hlt0⟩, if_pos hgt]
    refine ⟨_, hsome, ?_⟩
    rw [check_math]
    exact List.mem_append_left _ (List.mem_append_left _
      (List.mem_filterMap.mpr ⟨i, hi, hsome⟩))

/-- C6 counterexample: a line with quantity 1, unit price $10 and a stated
line total of $0 deviates by $10, yet `check_math` reports nothing: the
Python truthiness guard skips any line whose total is zero. -/
theorem check_math_zero_total_counterexample :
    zeroTotalItem.quantity = some 1
    ∧ zeroTotalItem.unit_price = some 10
    ∧ zeroTotalItem.line_total = some 0
    ∧ |(1 : ℚ) * 10 - 0| > 0.50
    ∧ check_math [zeroTotalItem] none none none none = [] := by
  have h : lineIssue zeroTotalItem = none := by
    simp [lineIssue, zeroTotalItem]
  refine ⟨rfl, rfl, rfl, by norm_num, ?_⟩
  simp [check_math, h, subtotalIssue, totalIssue]

/-! ### C3 and C4: range evaluation -/

theorem qaf_trivial (iq hq : ℝ) (h0 : iq = 0 ∨ hq = 0 ∨ hq ≤ 0) :
    quantity_adjustment_factor iq hq = 1 := by
  simp only [quantity_adjustment_factor]
  rw [if_pos h0]
  norm_num

theorem qaf_in_band (iq hq : ℝ) (h0 : ¬(iq = 0 ∨ hq = 0 ∨ hq ≤ 0))
    (hband : 0.5 ≤ iq / hq ∧ iq / hq ≤ 2.0) :
    quantity_adjustment_factor iq hq = 1 := by
  simp only [quantity_adjustment_factor]
  rw [if_neg h0, if_pos hband]
  norm_num

theorem qaf_log (iq hq : ℝ) (h0 : ¬(iq = 0 ∨ hq = 0 ∨ hq ≤ 0))
    (hband : ¬(0.5 ≤ iq / hq ∧ iq / hq ≤ 2.0)) :
    quantity_adjustment_factor iq hq
      = max 0.4 (min 2.0 (1.0 / (1.0 + 0.25 * Real.logb 2 (max (iq / hq) 0.1)))) := by
  simp only [quantity_adjustment_factor]
  rw [if_neg h0, if_neg hband]

/-- An invoice price inside the buffered range is classified IN_RANGE. -/
theorem evaluate_status_in_range (rd : RateData) (c : String) (item : LineItem)
    (price : ℚ) (hp : item.unit_price = some price)
    (h1 : adjusted_min rd (appliedQtyFactor rd item) ≤ (price : ℝ))
    (h2 : (price : ℝ) ≤ adjusted_max rd (appliedQtyFactor rd item)) :
    (evaluate_line_item (some rd) c item).status = "IN_RANGE" := by
  simp only [evaluate_line_item, hp]
  rw [if_pos ⟨h1, h2⟩]

/-- An invoice price outside the buffered range whose ratio to the adjusted
average exceeds the 1.5 ceiling is classified OUT_OF_RANGE. -/
theorem evaluate_status_out_hi (rd : RateData) (c : String) (item : LineItem)
    (price : ℚ) (hp : item.unit_price = some price)
    (hnr : ¬(adjusted_min rd (appliedQtyFactor rd item) ≤ (price : ℝ)
        ∧ (price : ℝ) ≤ adjusted_max rd (appliedQtyFactor rd item)))
    (havg : adjusted_avg rd (appliedQtyFactor rd item) > 0)
    (hratio : (price : ℝ) / adjusted_avg rd (appliedQtyFactor rd item)
        > MAX_PRICE_RATIO_HIGH) :
    (evaluate_line_item (some rd) c item).status = "OUT_OF_RANGE" := by
  simp only [evaluate_line_item, hp]
  rw [if_neg hnr, if_pos havg, if_pos (Or.inl hratio)]

/-- C3 counterexample (the claim's negation): a price satisfying
`adjustedMin ≤ price ≤ adjustedMax` is never classified OUT_OF_RANGE — the
ratio gate is only reached in the `else` branch of the buffered-range test. -/
theorem ratio_gate_never_fires_in_range :
    ¬ ∃ (rd : RateData) (c : String) (item : LineItem) (price : ℚ),
        item.unit_price = some price
        ∧ adjusted_min rd (appliedQtyFactor rd item) ≤ (price : ℝ)
        ∧ (price : ℝ) ≤ adjusted_max rd (appliedQtyFactor rd item)
        ∧ (evaluate_line_item (some rd) c item).status = "OUT_OF_RANGE" := by
  rintro ⟨rd, c, item, price, hp, h1, h2, hs⟩
  rw [evaluate_status_in_range rd c item price hp h1 h2] at hs
  exact absurd hs (by decide)

/-- C3 (amended): the ceiling/floor ratio gate fires for some price outside
the buffered range (here $200 against a flat $100 history: ratio 2 > 1.5),
and never fires for a price inside the buffered range — inside, the item is
always IN_RANGE. -/
theorem ratio_gate_only_outside_range :
    (∃ (rd : RateData) (c : String) (item : LineItem) (price : ℚ),
        item.unit_price = some price
        ∧ ¬(adjusted_min rd (appliedQtyFactor rd item) ≤ (price : ℝ)
            ∧ (price : ℝ) ≤ adjusted_max rd (appliedQtyFactor rd item))
        ∧ (price : ℝ) / adjusted_avg rd (appliedQtyFactor rd item) > MAX_PRICE_RATIO_HIGH
        ∧ (evaluate_line_item (some rd) c item).status = "OUT_OF_RANGE")
    ∧ ∀ (rd : RateData) (c : String) (item : LineItem) (price : ℚ),
        item.unit_price = some price →
        adjusted_min rd (appliedQtyFactor rd item) ≤ (price : ℝ) →
        (price : ℝ) ≤ adjusted_max rd (appliedQtyFactor rd item) →
        (evaluate_line_item (some rd) c item).status = "IN_RANGE" := by
  constructor
  · have hqf : appliedQtyFactor rdFlat itemPrice200 = 1 := by
      have hc : ((orOne itemPrice200.quantity : ℚ) : ℝ) = 1 := by
        norm_num [itemPrice200, orOne]
      have ha : rdFlat.avg_qty = (1 : ℝ) := rfl
      rw [appliedQtyFactor, hc, ha]
      exact qaf_in_band 1 1 (by norm_num) (by norm_num)
    have hbuf : sample_buffer rdFlat.n = 0.15 := by
      norm_num [sample_buffer, PRICE_RANGE_BUFFER, rdFlat]
    have hmin : adjusted_min rdFlat (appliedQtyFactor rdFlat itemPrice200) = 85 := by
      rw [adjusted_min, hqf, hbuf]
      norm_num [rdFlat]
    have hmax : adjusted_max rdFlat (appliedQtyFactor rdFlat itemPrice200) = 115 := by
      rw [adjusted_max, hqf, hbuf]
      norm_num [rdFlat]
    have havg : adjusted_avg rdFlat (appliedQtyFactor rdFlat itemPrice200) = 100 := by
      rw [adjusted_avg, hqf]
      norm_num [rdFlat]
    have hnr : ¬(adjusted_min rdFlat (appliedQtyFactor rdFlat itemPrice200)
        ≤ ((200 : ℚ) : ℝ)
        ∧ ((200 : ℚ) : ℝ) ≤ adjusted_max rdFlat (appliedQtyFactor rdFlat itemPrice200)) := by
      rw [hmin, hmax]
      norm_num
    have hrat : ((200 : ℚ) : ℝ) / adjusted_avg rdFlat (appliedQtyFactor rdFlat itemPrice200)
        > MAX_PRICE_RATIO_HIGH := by
      rw [havg]
      norm_num [MAX_PRICE_RATIO_HIGH]
    exact ⟨rdFlat, "Toner", itemPrice200, 200, rfl, hnr, hrat,
      evaluate_status_out_hi rdFlat "Toner" itemPrice200 200 rfl hnr
        (by rw [havg]; norm_num) hrat⟩
  · exact fun rd c item price hp h1 h2 =>
      evaluate_status_in_range rd c item price hp h1 h2

/-- C4 (amended): when the invoice quantity is absent or zero,
`compare_line_items` substitutes quantity 1, so the factor applied is
`_quantity_adjustment_factor(1, avgQty)`; that equals 1.0 when `avgQty ≤ 0`
or `avgQty ∈ [1/2, 2]`, but not in general. -/
theorem qty_factor_when_qty_absent (rd : RateData) (item : LineItem)
    (h : item.quantity = none ∨ item.quantity = some 0) :
    appliedQtyFactor rd item = quantity_adjustment_factor 1 rd.avg_qty
    ∧ ((rd.avg_qty ≤ 0 ∨ (1/2 ≤ rd.avg_qty ∧ rd.avg_qty ≤ 2)) →
        appliedQtyFactor rd item = 1) := by
  have h1 : ((orOne item.quantity : ℚ) : ℝ) = 1 := by
    rcases h with h | h <;> simp [orOne, h]
  have heq : appliedQtyFactor rd item = quantity_adjustment_factor 1 rd.avg_qty := by
    rw [appliedQtyFactor, h1]
  refine ⟨heq, ?_⟩
  intro hcase
  rw [heq]
  rcases hcase with hle | ⟨ha, hb⟩
  · exact qaf_trivial 1 rd.avg_qty (Or.inr (Or.inr hle))
  · have hpos : (0 : ℝ) < rd.avg_qty := lt_of_lt_of_le (by norm_num) ha
    apply qaf_in_band
    · rintro (h0 | h0 | h0)
      · norm_num at h0
      · exact absurd h0 (ne_of_gt hpos)
      · exact absurd h0 (not_le.mpr hpos)
    · constructor
      · rw [le_div_iff₀ hpos]
        linarith
      · rw [div_le_iff₀ hpos]
        linarith

/-- C4 witness: with average historical quantity 1 and an absent invoice
quantity, the applied factor is the factor at quantity 1 and equals 1. -/
theorem qty_factor_when_qty_absent_witness :
    appliedQtyFactor rdNeutral itemNoQty = quantity_adjustment_factor 1 rdNeutral.avg_qty
    ∧ ((rdNeutral.avg_qty ≤ 0 ∨ (1/2 ≤ rdNeutral.avg_qty ∧ rdNeutral.avg_qty ≤ 2)) →
        appliedQtyFactor rdNeutral itemNoQty = 1) :=
  qty_factor_when_qty_absent rdNeutral itemNoQty (Or.inl rfl)

/-- C4 counterexample: with an absent invoice quantity and average historical
quantity 4, the factor applied in range evaluation is 2.0, not 1.0
(`log2(1/4) = -2`, so `1/(1 + 0.25 * (-2)) = 2`). -/
theorem qty_factor_when_qty_absent_counterexample :
    itemNoQty.quantity = none
    ∧ appliedQtyFactor rdQty4 itemNoQty = 2
    ∧ appliedQtyFactor rdQty4 itemNoQty ≠ 1 := by
  have hc : ((orOne itemNoQty.quantity : ℚ) : ℝ) = 1 := by
    norm_num [itemNoQty, orOne]
  have havg : rdQty4.avg_qty = (4 : ℝ) := rfl
  have h2 : appliedQtyFactor rdQty4 itemNoQty = 2 := by
    rw [appliedQtyFactor, hc, havg]
    rw [qaf_log 1 4 (by norm_num) (by norm_num)]
    rw [show (1 : ℝ) / 4 = ((2 : ℝ) ^ (2 : ℕ))⁻¹ by norm_num]
    rw [show max (((2 : ℝ) ^ (2 : ℕ))⁻¹) 0.1 = ((2 : ℝ) ^ (2 : ℕ))⁻¹ from
      max_eq_left (by norm_num)]
    rw [Real.logb_inv, Real.logb_pow, Real.logb_self_eq_one (by norm_num)]
    norm_num
  exact ⟨rfl, h2, by rw [h2]; norm_num⟩

/-- C1: for every combination of input signals, the decision record's status
is FLAGGED exactly when its reason-code list is non-empty, and APPROVED
exactly when no reason code was accumulated. -/
theorem decide_flagged_iff_reason_codes_ne_nil
    (vm : VendorMatch) (comps : List LineComp) (math_issues : List String)
    (tc sc : CheckResult) (ws : List String) :
    (decide vm comps math_issues tc sc ws).status = "FLAGGED"
      ↔ (decide vm comps math_issues tc sc ws).reason_codes ≠ [] := by
  cases h : decideFlags vm comps math_issues ws with
  | nil => simp [StackBirds.decide, h]
  | cons a l => simp [StackBirds.decide, h]

/-- C2: the clarifying-question list of every decision record has between 1
and 3 entries; when steps 1-5 generated none, it is exactly the default
sanity-check question. -/
theorem decide_clarifying_questions_length
    (vm : VendorMatch) (comps : List LineComp) (math_issues : List String)
    (tc sc : CheckResult) (ws : List String) :
    1 ≤ (decide vm comps math_issues tc sc ws).clarifying_questions.length
    ∧ (decide vm comps math_issues tc sc ws).clarifying_questions.length ≤ 3
    ∧ (decideQuestions vm comps math_issues = [] →
        (decide vm comps math_issues tc sc ws).clarifying_questions = [defaultQuestion]) := by
  by_cases h : decideQuestions vm comps math_issues = []
  · simp [StackBirds.decide, h]
  · have hp : 0 < (decideQuestions vm comps math_issues).length := List.length_pos.mpr h
    simp only [StackBirds.decide, if_neg h, List.length_take]
    exact ⟨by omega, by omega, fun hc => absurd hc h⟩

/-- C9: `record_invoice` with a decision status other than APPROVED leaves
the learning store unchanged. -/
theorem record_invoice_non_approved_noop
    (d : InvoiceData) (s : String) (v : String) (db : LearnDB)
    (h : s ≠ "APPROVED") : record_invoice d s v db = db := by
  simp [record_invoice, h]

/-- C9 witness: a FLAGGED invoice is not recorded. -/
theorem record_invoice_non_approved_noop_witness :
    record_invoice sampleInvoice "FLAGGED" "Acme Supplies Inc." emptyDB = emptyDB :=
  record_invoice_non_approved_noop sampleInvoice "FLAGGED" "Acme Supplies Inc." emptyDB
    (by decide)

/-- C8: recording a second invoice with the same invoice number while the
first is already recorded is a no-op: the store after the second APPROVED
call equals the store after the first. -/
theorem record_invoice_idempotent
    (d1 d2 : InvoiceData) (v1 v2 : String) (db : LearnDB)
    (h : d1.invoice_number = d2.invoice_number) :
    record_invoice d2 "APPROVED" v2 (record_invoice d1 "APPROVED" v1 db)
      = record_invoice d1 "APPROVED" v1 db := by
  have happ : ¬ ("APPROVED" ≠ "APPROVED") := by simp
  have hid : d2.invoice_number.getD "UNKNOWN" = d1.invoice_number.getD "UNKNOWN" := by
    rw [h]
  by_cases hc :
      (db.invoices.map (·.invoice_number)).contains (d1.invoice_number.getD "UNKNOWN")
  · have h1 : record_invoice d1 "APPROVED" v1 db = db := by
      rw [record_invoice, if_neg happ, if_pos hc]
    rw [h1, record_invoice, if_neg happ, hid, if_pos hc]
  · have h1 : record_invoice d1 "APPROVED" v1 db
        = { invoices := db.invoices ++
              [{ invoice_number := d1.invoice_number.getD "UNKNOWN", vendor := v1
                 date := d1.invoice_date, total := d1.total
                 tax := d1.tax, shipping := d1.shipping }]
            price_history := d1.line_items.foldl
              (fun h item =>
                let desc := (item.description.getD "").trim
                if desc = "" then h
                else addPoint h (v1 ++ "|" ++ desc)
                  { unit_price := item.unit_price, quantity := item.quantity
                    line_total := item.line_total, date := d1.invoice_date
                    invoice_id := d1.invoice_number.getD "UNKNOWN" })
              db.price_history } := by
      rw [record_invoice, if_neg happ, if_neg hc]
    rw [h1, record_invoice, if_neg happ, hid]
    rw [if_pos ?_]
    simp [List.contains_iff_exists_mem_beq]

/-- C8 witness: recording the same invoice twice at a concrete store. -/
theorem record_invoice_idempotent_witness :
    record_invoice sampleInvoice "APPROVED" "Acme Supplies Inc."
        (record_invoice sampleInvoice "APPROVED" "Acme Supplies Inc." emptyDB)
      = record_invoice sampleInvoice "APPROVED" "Acme Supplies Inc." emptyDB :=
  record_invoice_idempotent sampleInvoice sampleInvoice
    "Acme Supplies Inc." "Acme Supplies Inc." emptyDB rfl

/-- C10: `check_tax` with tax exactly 0 always reports OBSERVATION even
though 0.0 is among the recognized rates, and OK is returned only when tax is
non-zero and the effective rate is within the tolerance of a strictly
positive recognized rate. -/
theorem check_tax_zero_observation (v : String) (st tx : Option ℚ) :
    ((0 : ℚ) ∈ VALID_TAX_RATES)
    ∧ (tx = some 0 → (check_tax v st tx).status = "OBSERVATION")
    ∧ ((check_tax v st tx).status = "OK" →
        ∃ s t, st = some s ∧ tx = some t ∧ t ≠ 0 ∧
          ∃ r ∈ VALID_TAX_RATES, 0 < r ∧
            |(if s > 0 then t / s else 0) - r| ≤ TAX_TOLERANCE) := by
  refine ⟨by norm_num [VALID_TAX_RATES], ?_, ?_⟩
  · rintro rfl
    cases st with
    | none => rfl
    | some s => simp [check_tax]
  · intro hok
    cases st with
    | none => simp [check_tax] at hok
    | some s =>
      cases tx with
      | none => simp [check_tax] at hok
      | some t =>
        by_cases ht : t = 0
        · subst ht; simp [check_tax] at hok
        · refine ⟨s, t, rfl, rfl, ht, ?_⟩
          simp only [check_tax, if_neg ht] at hok
          cases hf : VALID_TAX_RATES.find? fun r =>
              Decidable.decide (r > 0) &&
                Decidable.decide (|(if s > 0 then t / s else 0) - r| ≤ TAX_TOLERANCE) with
          | none => rw [hf] at hok; simp at hok
          | some r =>
            rw [hf] at hok
            have hp := List.find?_some hf
            have hm := List.mem_of_find?_eq_some hf
            simp only [Bool.and_eq_true, decide_eq_true_eq] at hp
            exact ⟨r, hm, hp.1, hp.2⟩

end StackBirds
